import Mathlib

/-!
Verification of `tools/cruft-manager/cruft_manager.py`.

The external world (shell commands, filesystem reads) is modelled as an
environment record fixing, for each external invocation the code makes, the
`CompletedProcess` it would return.  Each operation is embedded as a pure
function from the repository configuration and the environment to its
`UpdateResult` together with the trace of external commands it invoked.
-/

namespace CruftMgr

/-- Result of `subprocess.run(..., capture_output=True, text=True, check=False)`. -/
structure CmdResult where
  returncode : Int
  stdout : String
  stderr : String
deriving DecidableEq

/-- `Repository` dataclass: a repository managed by cruft. -/
structure Repository where
  name : String
  template : String
  github : String
  local_path : Option String := none
  auto_update : Bool := true
  branch_prefix : String := "cruft/template-update"
deriving DecidableEq

/-- `UpdateResult` dataclass: result of a cruft update operation. -/
structure UpdateResult where
  repo : Repository
  success : Bool
  needs_update : Bool := false
  old_commit : Option String := none
  new_commit : Option String := none
  pr_url : Option String := none
  error : Option String := none
  changes : List String := []
deriving DecidableEq

/-- Parsed `.cruft.json` content (truthy dict), as read by `_get_cruft_info`;
`commit` is the value of its `"commit"` key when present. -/
structure CruftInfo where
  commit : Option String
deriving DecidableEq

/-- External commands the manager can invoke (`_run_command` calls), with the
data-bearing arguments recorded. -/
inductive Cmd where
  | cruftCheck
  | cruftDiff
  | gitCheckoutBranch (branch : String)
  | cruftUpdate
  | gitStatus
  | gitAdd
  | gitCommit (msg : String)
  | gitPush (branch : String)
  | ghPrCreate (title : String) (body : String)
deriving DecidableEq

/-- Environment for one repository's processing: what each external command
would return, what `.cruft.json` holds before and after the update command,
and today's date string used in the branch name. -/
structure RepoEnv where
  today : String
  cruftInfo : Option CruftInfo
  cruftCheck : CmdResult
  cruftDiff : CmdResult
  checkoutBranch : CmdResult
  cruftUpdate : CmdResult
  newCruftInfo : Option CruftInfo
  gitStatus : CmdResult
  gitAdd : CmdResult
  gitCommit : CmdResult
  gitPush : CmdResult
  ghPrCreate : CmdResult
deriving DecidableEq

/-- The manager's `settings` mapping: the PR title, and the PR body template
as a function of the four keyword arguments passed to `str.format`
(template_name, old_commit, new_commit, changes). -/
structure Settings where
  pr_title_template : String
  pr_body_template : String → String → String → String → String

/-- Python `str.strip()`: drop leading and trailing whitespace. -/
def pyStrip (s : String) : String :=
  ⟨((s.data.dropWhile Char.isWhitespace).reverse.dropWhile
      Char.isWhitespace).reverse⟩

/-- Python `str.split("\n")`: split on every newline (so the split of the
empty string is one empty field). -/
def pySplitNl (s : String) : List String :=
  (s.data.splitOn '\n').map fun cs => ⟨cs⟩

/-- Python `s[:n]`: the first `n` characters of `s`. -/
def pyTake (s : String) (n : Nat) : String :=
  ⟨s.data.take n⟩

/-- Python `x[:8] if x else "unknown"` on an optional string
(empty string is falsy). -/
def commitShort (o : Option String) : String :=
  match o with
  | none => "unknown"
  | some s => if s = "" then "unknown" else pyTake s 8

/-- Python `x or "unknown"` on an optional string (empty string is falsy). -/
def orUnknown (o : Option String) : String :=
  match o with
  | none => "unknown"
  | some s => if s = "" then "unknown" else s

/-- The `changes=` argument of the PR body:
`"\n".join(result.changes[:20]) if result.changes else "See diff"`. -/
def prChanges (changes : List String) : String :=
  if changes ≠ [] then String.intercalate "\n" (changes.take 20) else "See diff"

/-- `CruftManager.check_for_updates`: check whether a repository needs cruft
updates.  Returns the `UpdateResult` and the trace of commands invoked. -/
def check_for_updates (repo : Repository) (env : RepoEnv) :
    UpdateResult × List Cmd :=
  match env.cruftInfo with
  | none =>
      ({ repo := repo, success := false, needs_update := false,
         error := some "No .cruft.json found - not a cruft-managed repo" }, [])
  | some cruft_info =>
      let old_commit := some (cruft_info.commit.getD "unknown")
      if env.cruftCheck.returncode ≠ 0 then
        let changes :=
          if env.cruftDiff.stdout ≠ "" then
            (pySplitNl env.cruftDiff.stdout).take 50
          else []
        ({ repo := repo, success := true, needs_update := true,
           old_commit := old_commit, changes := changes },
         [Cmd.cruftCheck, Cmd.cruftDiff])
      else
        ({ repo := repo, success := true, needs_update := false,
           old_commit := old_commit }, [Cmd.cruftCheck])

/-- `CruftManager.apply_update`: apply a cruft update to a repository.
Returns the `UpdateResult` and the trace of commands invoked.  Note the
source ignores the return codes of the checkout, add and commit commands. -/
def apply_update (settings : Settings) (repo : Repository) (env : RepoEnv) :
    UpdateResult × List Cmd :=
  let result0 := (check_for_updates repo env).1
  let trace0 := (check_for_updates repo env).2
  if !result0.needs_update then
    (result0, trace0)
  else if !repo.auto_update then
    (result0, trace0)
  else
    let branch_name := Repository.branch_prefix repo ++ "-" ++ env.today
    let trace1 := trace0 ++ [Cmd.gitCheckoutBranch branch_name, Cmd.cruftUpdate]
    if env.cruftUpdate.returncode ≠ 0 then
      ({ result0 with
          success := false
          error := some ("Cruft update failed: " ++ env.cruftUpdate.stderr) },
       trace1)
    else
      let result1 :=
        match env.newCruftInfo with
        | some new_cruft_info =>
            { result0 with
              new_commit := some (new_cruft_info.commit.getD "unknown") }
        | none => result0
      let trace2 := trace1 ++ [Cmd.gitStatus]
      if pyStrip env.gitStatus.stdout = "" then
        ({ result1 with needs_update := false }, trace2)
      else
        let commit_msg :=
          "chore(deps): update from cookiecutter template\n\nTemplate commit: "
            ++ commitShort result1.old_commit ++ " → "
            ++ commitShort result1.new_commit
            ++ "\n\n🤖 Generated with cruft-manager\n"
        let trace3 := trace2 ++
          [Cmd.gitAdd, Cmd.gitCommit commit_msg, Cmd.gitPush branch_name]
        if env.gitPush.returncode ≠ 0 then
          ({ result1 with
              success := false
              error := some ("Failed to push branch: " ++ env.gitPush.stderr) },
           trace3)
        else
          let pr_body :=
            settings.pr_body_template repo.template
              (orUnknown result1.old_commit) (orUnknown result1.new_commit)
              (prChanges result1.changes)
          let trace4 := trace3 ++
            [Cmd.ghPrCreate settings.pr_title_template pr_body]
          if env.ghPrCreate.returncode = 0 then
            ({ result1 with pr_url := some (pyStrip env.ghPrCreate.stdout) },
             trace4)
          else
            ({ result1 with
               error := some ("Failed to create PR: " ++ env.ghPrCreate.stderr) },
             trace4)

/-- Per-repository environment inside `run_updates`: whether
`Path(repo.local_path).exists()`, whether the clone command succeeds, and the
environment for the subsequent check/apply. -/
structure RepoWorld where
  localExists : Bool
  cloneOk : Bool
  env : RepoEnv

/-- Python `repo.local_path and Path(repo.local_path).exists()`
(a `None` or empty path is falsy). -/
def localUsable (repo : Repository) (w : RepoWorld) : Bool :=
  match repo.local_path with
  | none => false
  | some p => p ≠ "" && w.localExists

/-- The body of the `run_updates` loop for one repository: use the local copy
when usable, otherwise clone (appending a failure outcome when the clone
fails), then check (dry run) or apply. -/
def processRepo (settings : Settings) (dry_run : Bool) (repo : Repository)
    (w : RepoWorld) : UpdateResult :=
  if !localUsable repo w && !w.cloneOk then
    { repo := repo, success := false,
      error := some "Failed to clone repository" }
  else if dry_run then (check_for_updates repo w.env).1
  else (apply_update settings repo w.env).1

/-- `CruftManager.run_updates`: run updates for all registered repositories,
each paired with its environment, in registry order. -/
def run_updates (settings : Settings) (dry_run : Bool)
    (items : List (Repository × RepoWorld)) : List UpdateResult :=
  items.map (fun item => processRepo settings dry_run item.1 item.2)

/-- Environment of `scan_github_for_repos`: the search command's result and
the JSON extraction `[r["repository"]["nameWithOwner"] for r in loads(out)]`,
where `none` models a caught `JSONDecodeError` or `KeyError`. -/
structure ScanEnv where
  search : CmdResult
  parse : String → Option (List String)

/-- `CruftManager.scan_github_for_repos`: scan GitHub for repos using the
template; failures degrade to an empty list, successes are deduplicated
(the source builds a set before listing). -/
def scan_github_for_repos (env : ScanEnv) : List String :=
  if env.search.returncode ≠ 0 then []
  else
    match env.parse env.search.stdout with
    | none => []
    | some names => names.dedup

/-! Concrete inputs used by witnesses and counterexamples. -/

/-- A completed process with status 0 and empty output. -/
def cmd0 : CmdResult := { returncode := 0, stdout := "", stderr := "" }

/-- A completed process with status 1 and empty output. -/
def cmd1 : CmdResult := { returncode := 1, stdout := "", stderr := "" }

/-- A sample registered repository. -/
def exRepo : Repository :=
  { name := "demo", template := "python-template", github := "acme/demo" }

/-- The sample repository with automatic updates disabled. -/
def repoNoAuto : Repository := { exRepo with auto_update := false }

/-- Sample settings with a transparent body template. -/
def exSettings : Settings :=
  { pr_title_template := "chore: template update"
    pr_body_template := fun t o n c => t ++ " " ++ o ++ " " ++ n ++ "\n" ++ c }

/-- A happy-path environment: managed repo, drift detected, update applies,
tree dirty, push and PR creation succeed. -/
def baseEnv : RepoEnv :=
  { today := "20260101"
    cruftInfo := some { commit := some "deadbeef0" }
    cruftCheck := cmd1
    cruftDiff := { returncode := 0, stdout := "line1\nline2", stderr := "" }
    checkoutBranch := cmd0
    cruftUpdate := cmd0
    newCruftInfo := some { commit := some "cafebabe1" }
    gitStatus := { returncode := 0, stdout := " M pyproject.toml", stderr := "" }
    gitAdd := cmd0
    gitCommit := cmd0
    gitPush := cmd0
    ghPrCreate := { returncode := 0, stdout := "https://pr.example\n", stderr := "" } }

/-- Environment with no `.cruft.json`. -/
def envNoCruft : RepoEnv := { baseEnv with cruftInfo := none }

/-- Environment in which PR creation fails. -/
def envPrFail : RepoEnv :=
  { baseEnv with ghPrCreate := { returncode := 1, stdout := "", stderr := "boom" } }

/-- Environment in which branch creation fails. -/
def envCheckoutFail : RepoEnv := { baseEnv with checkoutBranch := cmd1 }

/-- Environment in which the update command fails. -/
def envUpdFail : RepoEnv :=
  { baseEnv with cruftUpdate := { returncode := 1, stdout := "", stderr := "ufail" } }

/-- Environment in which the tree is clean after the update command. -/
def envClean : RepoEnv :=
  { baseEnv with gitStatus := { returncode := 0, stdout := "", stderr := "" } }

/-- World in which cloning fails and no local path is usable. -/
def cloneFailWorld : RepoWorld :=
  { localExists := false, cloneOk := false, env := baseEnv }

/-- World in which cloning succeeds. -/
def cloneOkWorld : RepoWorld :=
  { localExists := false, cloneOk := true, env := baseEnv }

/-- A successful scan environment returning a duplicated name. -/
def exScan : ScanEnv :=
  { search := { returncode := 0, stdout := "[]", stderr := "" }
    parse := fun _ => some ["acme/a", "acme/b", "acme/a"] }

/-! Shared helper lemmas. -/

/-- The outcome of a drift check carries the repository it was asked about. -/
theorem check_repo_eq (repo : Repository) (env : RepoEnv) :
    (check_for_updates repo env).1.repo = repo := by
  unfold check_for_updates
  split
  · rfl
  · split <;> rfl

/-- The outcome of applying an update carries the repository it was asked
about. -/
theorem apply_repo_eq (settings : Settings) (repo : Repository)
    (env : RepoEnv) :
    (apply_update settings repo env).1.repo = repo := by
  have h := check_repo_eq repo env
  cases hn : env.newCruftInfo <;>
    simp only [apply_update, hn] <;>
    split_ifs <;> simp [h]

/-- Each loop iteration of `run_updates` yields an outcome for its own
repository. -/
theorem processRepo_repo_eq (settings : Settings) (dry_run : Bool)
    (repo : Repository) (w : RepoWorld) :
    (processRepo settings dry_run repo w).repo = repo := by
  unfold processRepo
  split
  · rfl
  · split
    · exact check_repo_eq repo w.env
    · exact apply_repo_eq settings repo w.env

/-- `check_for_updates` never captures more than 50 change lines. -/
theorem check_changes_le (repo : Repository) (env : RepoEnv) :
    (check_for_updates repo env).1.changes.length ≤ 50 := by
  unfold check_for_updates
  split
  · simp
  · split
    · split
      · simp
      · simp
    · simp

/-- The PR body's changes field depends only on the first 20 change lines. -/
theorem prChanges_take (l : List String) :
    prChanges l = prChanges (l.take 20) := by
  unfold prChanges
  rcases eq_or_ne l [] with h | h
  · subst h; simp
  · have h20 : l.take 20 ≠ [] := by
      cases l with
      | nil => exact absurd rfl h
      | cons a t => simp
    rw [if_pos h, if_pos h20, List.take_take]
    simp

/-- A failed drift check always explains itself. -/
theorem check_success_false_error (repo : Repository) (env : RepoEnv)
    (h : (check_for_updates repo env).1.success = false) :
    (check_for_updates repo env).1.error ≠ none := by
  unfold check_for_updates at h ⊢
  split at h
  · simp
  · split at h <;> simp_all

/-- A failed update application always explains itself. -/
theorem apply_success_false_error (settings : Settings) (repo : Repository)
    (env : RepoEnv)
    (h : (apply_update settings repo env).1.success = false) :
    (apply_update settings repo env).1.error ≠ none := by
  have hcs := check_success_false_error repo env
  cases hn : env.newCruftInfo <;>
    simp only [apply_update, hn] at h ⊢ <;>
    split_ifs at h ⊢ <;>
    first
      | exact hcs h
      | simp

/-! Claim C1. -/

/-- C1 (counterexample): with `.cruft.json` absent, `check_for_updates` does
NOT return `needs_update=false, success=true, error=none`; the claimed
outcome is false at this concrete input. -/
theorem C1_counterexample :
    ¬ ((check_for_updates exRepo envNoCruft).1.needs_update = false ∧
       (check_for_updates exRepo envNoCruft).1.success = true ∧
       (check_for_updates exRepo envNoCruft).1.error = none) := by
  decide

/-- C1 (amended): with `.cruft.json` absent, `check_for_updates` returns
`needs_update=false`, but `success=false` together with the error
"No .cruft.json found - not a cruft-managed repo": the unmanaged repository
is reported as a failure, not silently skipped. -/
theorem C1_missing_binding (repo : Repository) (env : RepoEnv)
    (h : env.cruftInfo = none) :
    (check_for_updates repo env).1.needs_update = false ∧
    (check_for_updates repo env).1.success = false ∧
    (check_for_updates repo env).1.error =
      some "No .cruft.json found - not a cruft-managed repo" := by
  simp [check_for_updates, h]

/-- C1 witness: the amended claim at a concrete environment lacking
`.cruft.json`. -/
theorem C1_missing_binding_witness :
    envNoCruft.cruftInfo = none ∧
    ((check_for_updates exRepo envNoCruft).1.needs_update = false ∧
     (check_for_updates exRepo envNoCruft).1.success = false ∧
     (check_for_updates exRepo envNoCruft).1.error =
       some "No .cruft.json found - not a cruft-managed repo") :=
  ⟨rfl, C1_missing_binding exRepo envNoCruft rfl⟩

/-! Claim C4. -/

/-- C4: with a Template Binding State present, a zero drift-check status
gives `needs_update=false`, and a non-zero status gives `needs_update=true`
with `success` still `true` and at most 50 captured change lines. -/
theorem C4_drift_signal (repo : Repository) (env : RepoEnv) (ci : CruftInfo)
    (hci : env.cruftInfo = some ci) :
    (env.cruftCheck.returncode = 0 →
      (check_for_updates repo env).1.needs_update = false ∧
      (check_for_updates repo env).1.success = true) ∧
    (env.cruftCheck.returncode ≠ 0 →
      (check_for_updates repo env).1.needs_update = true ∧
      (check_for_updates repo env).1.success = true ∧
      (check_for_updates repo env).1.changes.length ≤ 50) := by
  constructor
  · intro h0
    simp [check_for_updates, hci, h0]
  · intro hne
    refine ⟨?_, ?_, check_changes_le repo env⟩ <;>
      simp [check_for_updates, hci, hne]

/-- C4 witness: the drift-detected side of the claim at a concrete
environment whose drift-check command exits with status 1. -/
theorem C4_drift_signal_witness :
    baseEnv.cruftCheck.returncode ≠ 0 ∧
    ((check_for_updates exRepo baseEnv).1.needs_update = true ∧
     (check_for_updates exRepo baseEnv).1.success = true ∧
     (check_for_updates exRepo baseEnv).1.changes.length ≤ 50) :=
  ⟨by decide,
   (C4_drift_signal exRepo baseEnv { commit := some "deadbeef0" } rfl).2
     (by decide)⟩

/-! Claim C2. -/

/-- C2 (counterexample): when PR creation fails, `apply_update` leaves
`success=true` while setting a non-null error, so "success is false iff
error is non-null" is false at this concrete input. -/
theorem C2_counterexample :
    (apply_update exSettings exRepo envPrFail).1.success = true ∧
    (apply_update exSettings exRepo envPrFail).1.error ≠ none := by
  decide

/-- C2 (amended): for every outcome produced by processing a repository,
`success=false` implies a non-null error; the converse fails, because a
PR-creation failure records its error without clearing `success`. -/
theorem C2_failure_has_error (settings : Settings) (dry_run : Bool)
    (repo : Repository) (w : RepoWorld)
    (h : (processRepo settings dry_run repo w).success = false) :
    (processRepo settings dry_run repo w).error ≠ none := by
  unfold processRepo at h ⊢
  split_ifs at h ⊢
  · simp
  · exact check_success_false_error repo w.env h
  · exact apply_success_false_error settings repo w.env h

/-- C2 witness: the amended claim at a concrete clone failure. -/
theorem C2_failure_has_error_witness :
    (processRepo exSettings false exRepo cloneFailWorld).success = false ∧
    (processRepo exSettings false exRepo cloneFailWorld).error ≠ none :=
  ⟨by decide,
   C2_failure_has_error exSettings false exRepo cloneFailWorld (by decide)⟩

/-! Claim C3. -/

/-- C3 (counterexample): the branch-creation command fails (non-zero status)
and yet the template-update command is still invoked, so branch-creation
failure does not short-circuit the remaining stages. -/
theorem C3_counterexample :
    envCheckoutFail.checkoutBranch.returncode ≠ 0 ∧
    Cmd.cruftUpdate ∈ (apply_update exSettings exRepo envCheckoutFail).2 := by
  decide

/-- C3 (amended): only the template-update and push stages short-circuit:
a failing update command yields `success=false` with its stage error and
stops before status/commit/push/PR, and a failing push yields
`success=false` with its stage error and stops before PR creation.  The
exit codes of branch creation and commit are not checked. -/
theorem C3_short_circuit (settings : Settings) (repo : Repository)
    (env : RepoEnv) (ci : CruftInfo) (hci : env.cruftInfo = some ci)
    (hchk : env.cruftCheck.returncode ≠ 0) (hau : repo.auto_update = true) :
    (env.cruftUpdate.returncode ≠ 0 →
      (apply_update settings repo env).1.success = false ∧
      (apply_update settings repo env).1.error =
        some ("Cruft update failed: " ++ env.cruftUpdate.stderr) ∧
      Cmd.gitStatus ∉ (apply_update settings repo env).2 ∧
      (∀ m, Cmd.gitCommit m ∉ (apply_update settings repo env).2) ∧
      (∀ b, Cmd.gitPush b ∉ (apply_update settings repo env).2) ∧
      (∀ t b, Cmd.ghPrCreate t b ∉ (apply_update settings repo env).2)) ∧
    (env.cruftUpdate.returncode = 0 → pyStrip env.gitStatus.stdout ≠ "" →
      env.gitPush.returncode ≠ 0 →
      (apply_update settings repo env).1.success = false ∧
      (apply_update settings repo env).1.error =
        some ("Failed to push branch: " ++ env.gitPush.stderr) ∧
      (∀ t b, Cmd.ghPrCreate t b ∉ (apply_update settings repo env).2)) := by
  constructor
  · intro hupd
    cases hn : env.newCruftInfo <;>
      simp [apply_update, check_for_updates, hci, hchk, hau, hupd, hn]
  · intro hupd hst hpush
    cases hn : env.newCruftInfo <;>
      simp [apply_update, check_for_updates, hci, hchk, hau, hupd, hst,
        hpush, hn]

/-- C3 witness: the update-stage side of the amended claim at a concrete
environment whose update command exits with status 1. -/
theorem C3_short_circuit_witness :
    envUpdFail.cruftUpdate.returncode ≠ 0 ∧
    (apply_update exSettings exRepo envUpdFail).1.success = false ∧
    (apply_update exSettings exRepo envUpdFail).1.error =
      some ("Cruft update failed: " ++ envUpdFail.cruftUpdate.stderr) ∧
    Cmd.gitStatus ∉ (apply_update exSettings exRepo envUpdFail).2 :=
  have h := (C3_short_circuit exSettings exRepo envUpdFail
      { commit := some "deadbeef0" } rfl (by decide) rfl).1 (by decide)
  ⟨by decide, h.1, h.2.1, h.2.2.1⟩

/-! Claim C5. -/

/-- C5: with `auto_update=false` and drift detected, `apply_update` invokes
no branch-create, update, commit, push or PR-create command and returns
`needs_update=true, success=true` (skip by policy). -/
theorem C5_skip_by_policy (settings : Settings) (repo : Repository)
    (env : RepoEnv) (ci : CruftInfo) (hci : env.cruftInfo = some ci)
    (hchk : env.cruftCheck.returncode ≠ 0) (hau : repo.auto_update = false) :
    (apply_update settings repo env).1.needs_update = true ∧
    (apply_update settings repo env).1.success = true ∧
    (∀ b, Cmd.gitCheckoutBranch b ∉ (apply_update settings repo env).2) ∧
    Cmd.cruftUpdate ∉ (apply_update settings repo env).2 ∧
    (∀ m, Cmd.gitCommit m ∉ (apply_update settings repo env).2) ∧
    (∀ b, Cmd.gitPush b ∉ (apply_update settings repo env).2) ∧
    (∀ t b, Cmd.ghPrCreate t b ∉ (apply_update settings repo env).2) := by
  simp [apply_update, check_for_updates, hci, hchk, hau]

/-- C5 witness: the claim at a concrete drift-detected environment for a
repository with automatic updates disabled. -/
theorem C5_skip_by_policy_witness :
    repoNoAuto.auto_update = false ∧
    baseEnv.cruftCheck.returncode ≠ 0 ∧
    (apply_update exSettings repoNoAuto baseEnv).1.needs_update = true ∧
    (apply_update exSettings repoNoAuto baseEnv).1.success = true ∧
    Cmd.cruftUpdate ∉ (apply_update exSettings repoNoAuto baseEnv).2 :=
  have h := C5_skip_by_policy exSettings repoNoAuto baseEnv
    { commit := some "deadbeef0" } rfl (by decide) rfl
  ⟨rfl, by decide, h.1, h.2.1, h.2.2.2.1⟩

/-! Claim C6. -/

/-- C6: when the update command succeeds but the working-tree status query
reports no pending changes, no commit, push or PR-create command is invoked
and the outcome has `needs_update` set back to `false` with
`success=true`. -/
theorem C6_no_diff_after_update (settings : Settings) (repo : Repository)
    (env : RepoEnv) (ci : CruftInfo) (hci : env.cruftInfo = some ci)
    (hchk : env.cruftCheck.returncode ≠ 0) (hau : repo.auto_update = true)
    (hupd : env.cruftUpdate.returncode = 0)
    (hst : pyStrip env.gitStatus.stdout = "") :
    (apply_update settings repo env).1.needs_update = false ∧
    (apply_update settings repo env).1.success = true ∧
    (∀ m, Cmd.gitCommit m ∉ (apply_update settings repo env).2) ∧
    (∀ b, Cmd.gitPush b ∉ (apply_update settings repo env).2) ∧
    (∀ t b, Cmd.ghPrCreate t b ∉ (apply_update settings repo env).2) := by
  cases hn : env.newCruftInfo <;>
    simp [apply_update, check_for_updates, hci, hchk, hau, hupd, hst, hn]

/-- C6 witness: the claim at a concrete environment whose status query
reports a clean tree after a successful update. -/
theorem C6_no_diff_after_update_witness :
    envClean.cruftUpdate.returncode = 0 ∧
    pyStrip envClean.gitStatus.stdout = "" ∧
    (apply_update exSettings exRepo envClean).1.needs_update = false ∧
    (apply_update exSettings exRepo envClean).1.success = true :=
  have h := C6_no_diff_after_update exSettings exRepo envClean
    { commit := some "deadbeef0" } rfl (by decide) rfl rfl (by decide)
  ⟨rfl, by decide, h.1, h.2.1⟩

/-! Claim C7. -/

/-- C7: a completed `run_updates` call returns exactly one Update Outcome
per registered binding, in registry iteration order, each outcome carrying
its own binding's repository. -/
theorem C7_one_outcome_per_binding (settings : Settings) (dry_run : Bool)
    (items : List (Repository × RepoWorld)) :
    (run_updates settings dry_run items).length = items.length ∧
    ∀ i (h1 : i < (run_updates settings dry_run items).length)
      (h2 : i < items.length),
      ((run_updates settings dry_run items).get ⟨i, h1⟩).repo =
        (items.get ⟨i, h2⟩).1 := by
  refine ⟨by simp [run_updates], ?_⟩
  intro i h1 h2
  simp [run_updates, processRepo_repo_eq]

/-- C7 witness: the claim at a concrete one-binding registry. -/
theorem C7_one_outcome_per_binding_witness :
    (run_updates exSettings true [(exRepo, cloneOkWorld)]).length = 1 ∧
    ((run_updates exSettings true [(exRepo, cloneOkWorld)]).get
        ⟨0, by decide⟩).repo =
      (([(exRepo, cloneOkWorld)] :
          List (Repository × RepoWorld)).get ⟨0, by decide⟩).1 :=
  ⟨by decide,
   (C7_one_outcome_per_binding exSettings true [(exRepo, cloneOkWorld)]).2 0
     (by decide) (by decide)⟩

/-! Claim C8. -/

/-- C8: for a binding with no usable local path whose clone command fails,
`run_updates` appends the outcome `success=false`,
`error="Failed to clone repository"`, `needs_update=false` and continues
with the remaining bindings. -/
theorem C8_clone_failure (settings : Settings) (dry_run : Bool)
    (repo : Repository) (w : RepoWorld)
    (rest : List (Repository × RepoWorld))
    (hl : localUsable repo w = false) (hc : w.cloneOk = false) :
    run_updates settings dry_run ((repo, w) :: rest) =
      { repo := repo, success := false, needs_update := false,
        error := some "Failed to clone repository" } ::
        run_updates settings dry_run rest := by
  simp [run_updates, processRepo, hl, hc]

/-- C8 witness: the claim at a concrete binding with no local path and a
failing clone. -/
theorem C8_clone_failure_witness :
    localUsable exRepo cloneFailWorld = false ∧
    cloneFailWorld.cloneOk = false ∧
    run_updates exSettings false [(exRepo, cloneFailWorld)] =
      [{ repo := exRepo, success := false, needs_update := false,
         error := some "Failed to clone repository" }] :=
  ⟨rfl, rfl,
   C8_clone_failure exSettings false exRepo cloneFailWorld [] rfl rfl⟩

/-! Claim C9. -/

/-- C9: the GitHub scan degrades to an empty list when the search command
fails or its output cannot be interpreted, never raising; on success it
returns the found repository identifiers with duplicates removed. -/
theorem C9_scan_robust (env : ScanEnv) :
    (env.search.returncode ≠ 0 → scan_github_for_repos env = []) ∧
    (env.parse env.search.stdout = none → scan_github_for_repos env = []) ∧
    (scan_github_for_repos env).Nodup ∧
    (∀ names, env.search.returncode = 0 →
      env.parse env.search.stdout = some names →
      ∀ x, x ∈ scan_github_for_repos env ↔ x ∈ names) := by
  refine ⟨?_, ?_, ?_, ?_⟩
  · intro h
    simp [scan_github_for_repos, h]
  · intro h
    simp [scan_github_for_repos, h]
  · rcases h : env.parse env.search.stdout with _ | names <;>
      unfold scan_github_for_repos <;> rw [h] <;> split <;>
      simp [List.nodup_dedup]
  · intro names h0 hp x
    simp [scan_github_for_repos, h0, hp, List.mem_dedup]

/-- C9 witness: the success side of the claim at a concrete scan whose
parsed output repeats one repository name. -/
theorem C9_scan_robust_witness :
    exScan.search.returncode = 0 ∧
    exScan.parse exScan.search.stdout =
      some ["acme/a", "acme/b", "acme/a"] ∧
    (scan_github_for_repos exScan).Nodup ∧
    ("acme/a" ∈ scan_github_for_repos exScan ↔
      "acme/a" ∈ ["acme/a", "acme/b", "acme/a"]) :=
  ⟨rfl, rfl, (C9_scan_robust exScan).2.2.1,
   (C9_scan_robust exScan).2.2.2 ["acme/a", "acme/b", "acme/a"] rfl rfl
     "acme/a"⟩

/-! Claim C10. -/

/-- C10: a run reaching the PR-creation stage passes the PR body template a
changes field built from only the first 20 captured change lines, while the
outcome's own change list is bounded by 50 lines. -/
theorem C10_pr_body_truncation (settings : Settings) (repo : Repository)
    (env : RepoEnv) (ci : CruftInfo) (hci : env.cruftInfo = some ci)
    (hchk : env.cruftCheck.returncode ≠ 0) (hau : repo.auto_update = true)
    (hupd : env.cruftUpdate.returncode = 0)
    (hst : pyStrip env.gitStatus.stdout ≠ "")
    (hpush : env.gitPush.returncode = 0) :
    Cmd.ghPrCreate settings.pr_title_template
        (settings.pr_body_template repo.template
          (orUnknown (apply_update settings repo env).1.old_commit)
          (orUnknown (apply_update settings repo env).1.new_commit)
          (prChanges (apply_update settings repo env).1.changes)) ∈
      (apply_update settings repo env).2 ∧
    (apply_update settings repo env).1.changes.length ≤ 50 ∧
    prChanges (apply_update settings repo env).1.changes =
      prChanges ((apply_update settings repo env).1.changes.take 20) := by
  refine ⟨?_, ?_, prChanges_take _⟩
  · by_cases hpr : env.ghPrCreate.returncode = 0 <;>
      cases hn : env.newCruftInfo <;>
      simp [apply_update, check_for_updates, hci, hchk, hau, hupd, hst,
        hpush, hpr, hn]
  · by_cases hd : env.cruftDiff.stdout = "" <;>
      by_cases hpr : env.ghPrCreate.returncode = 0 <;>
      cases hn : env.newCruftInfo <;>
      simp [apply_update, check_for_updates, hci, hchk, hau, hupd, hst,
        hpush, hpr, hn, hd, List.length_take]

/-- C10 witness: the claim at a concrete run that creates a PR. -/
theorem C10_pr_body_truncation_witness :
    baseEnv.gitPush.returncode = 0 ∧
    (Cmd.ghPrCreate exSettings.pr_title_template
        (exSettings.pr_body_template exRepo.template
          (orUnknown (apply_update exSettings exRepo baseEnv).1.old_commit)
          (orUnknown (apply_update exSettings exRepo baseEnv).1.new_commit)
          (prChanges (apply_update exSettings exRepo baseEnv).1.changes)) ∈
      (apply_update exSettings exRepo baseEnv).2) ∧
    (apply_update exSettings exRepo baseEnv).1.changes.length ≤ 50 :=
  have h := C10_pr_body_truncation exSettings exRepo baseEnv
    { commit := some "deadbeef0" } rfl (by decide) rfl rfl (by decide) rfl
  ⟨rfl, h.1, h.2.1⟩

end CruftMgr
